import Mathlib

/-
Shallow embedding of the render adapter in
src/slangpy_imgui_bundle/imgui_adapter.py (class ImguiAdapter), the module
imported by app.py.  Pure data is modelled directly; every GPU / surface
call the adapter issues is recorded as an event in a trace, and the two
raise statements of the class are modelled as an explicit error channel.
Machine floats of the Python code (clip rectangles, framebuffer scale,
display size) are modelled as exact rationals.
-/

namespace SlangpyImgui

/-- Truncation toward zero of an exact rational, the behaviour of the Python
built-in int() on the float values the adapter converts. -/
def pyInt (q : ℚ) : Int := Int.tdiv q.num (q.den : Int)

/-- A slangpy texture, identified by the value of its shared handle
(texture.shared_handle.value in the source). -/
structure Texture where
  sharedHandle : Nat
deriving DecidableEq

/-- A value of the registered-texture dict: the (texture, sampler) pair stored
by ImguiAdapter.register_texture.  Samplers created by device.create_sampler
are identified by a fresh counter. -/
structure TexEntry where
  texture : Texture
  sampler : Nat
deriving DecidableEq

/-- The adapter's registered-texture mapping self._textures, a Python dict
from texture id to (texture, sampler), modelled as an association list with
unique keys maintained by the operations below. -/
abbrev TexMap := List (Nat × TexEntry)

/-- Python dict lookup d.get(k): the value at the first matching key. -/
def dictGet : TexMap → Nat → Option TexEntry
  | [], _ => none
  | e :: rest, k => if k = e.1 then some e.2 else dictGet rest k

/-- Python dict assignment d[k] = v: overwrite the entry at k when present,
append it otherwise. -/
def dictInsert : TexMap → Nat → TexEntry → TexMap
  | [], k, v => [(k, v)]
  | e :: rest, k, v => if e.1 = k then (k, v) :: rest else e :: dictInsert rest k v

/-- Python dict deletion del d[k]: drop the entry at k. -/
def dictErase : TexMap → Nat → TexMap
  | [], _ => []
  | e :: rest, k => if e.1 = k then dictErase rest k else e :: dictErase rest k

/-- The clip rectangle of an ImGui draw command (x, y, z, w float fields). -/
structure ClipRect where
  x : ℚ
  y : ℚ
  z : ℚ
  w : ℚ
deriving DecidableEq

/-- A single ImGui draw command from a command list's cmd_buffer. -/
structure DrawCmd where
  textureId : Nat
  clipRect : ClipRect
  elemCount : Nat
  idxOffset : Nat
deriving DecidableEq

/-- One ImGui command list (draw batch): the raw vertex and index bytes the
adapter reads through ctypes, and the list of draw commands. -/
structure DrawList where
  vtxBytes : List Nat
  idxBytes : List Nat
  cmdBuffer : List DrawCmd
deriving DecidableEq

/-- The externally supplied ImDrawData: a list of command lists. -/
structure DrawData where
  cmdLists : List DrawList
deriving DecidableEq

/-- The frame buffer texture created by ImguiAdapter._create_frame_buffer,
identified by its dimensions. -/
structure FrameBuffer where
  width : ℚ
  height : ℚ
deriving DecidableEq

/-- One GPU / surface call issued by the adapter, in program order. -/
inductive GpuEvent where
  | acquireNextImage
  | createCommandEncoder
  | beginRenderPassClear
  | createVertexBuffer (data : List Nat)
  | createIndexBuffer (data : List Nat)
  | beginRenderPassLoad
  | bindPipeline
  | writeProj
  | writeTexture (handle : Nat)
  | writeSampler (sampler : Nat)
  | setRenderState (vpW vpH : ℚ) (minX minY maxX maxY : Int)
  | drawIndexed (vertexCount startIndexLocation : Nat)
  | blit
  | finishEncoder
  | submitCommandBuffer
  | present
  | deviceWait
  | surfaceConfigure (w h : ℚ)
  | surfaceUnconfigure
  | createFrameBuffer (w h : ℚ)
  | createSampler
  | createSurface
  | createInputLayout
  | loadProgram
  | createRenderPipeline
  | createTexture
deriving DecidableEq

/-- The two exceptions raised by adapter code itself: the RuntimeError of
ImguiAdapter.__init__ and the ValueError of ImguiAdapter.render.  Every other
failure mode is delegated to the external GPU library and not modelled. -/
inductive AdapterError where
  | noImguiContext
  | textureNotRegistered
deriving DecidableEq

/-- The message of each adapter-raised exception, as in the source. -/
def errorMessage : AdapterError → String
  | .noImguiContext =>
      "No valid ImGui context. Use imgui.create_context() first and/or imgui.set_current_context()."
  | .textureNotRegistered => "Texture not registered with ImguiAdapter."

/-- The Python exception class of each adapter-raised exception. -/
def pyExceptionType : AdapterError → String
  | .noImguiContext => "RuntimeError"
  | .textureNotRegistered => "ValueError"

/-- The mutable attributes of an ImguiAdapter instance that the modelled
operations read or write.  frameBuffer is None until the first resize with
positive dimensions stores one; surfaceConfig records the surface
configuration (None after surface.unconfigure).  ioDisplaySize and ioFbScale
mirror io.display_size and io.display_framebuffer_scale (the latter is set
with equal components, so one rational suffices). -/
structure AdapterState where
  textures : TexMap
  frameBuffer : Option FrameBuffer
  surfaceConfig : Option (ℚ × ℚ)
  ioDisplaySize : ℚ × ℚ
  ioFbScale : ℚ
  fontTexture : Option Texture
  nextSampler : Nat
deriving DecidableEq

namespace ImguiAdapter

/-- ImguiAdapter.register_texture: look up the texture's shared handle value,
create a sampler on the device, and store the (texture, sampler) pair in
self._textures under that id. -/
def register_texture (st : AdapterState) (t : Texture) : AdapterState × List GpuEvent :=
  let texture_id := t.sharedHandle
  ({ st with
      textures := dictInsert st.textures texture_id ⟨t, st.nextSampler⟩
      nextSampler := st.nextSampler + 1 },
   [.createSampler])

/-- ImguiAdapter.unregister_texture: delete the entry at the texture's shared
handle value when it is present, otherwise do nothing. -/
def unregister_texture (st : AdapterState) (t : Texture) : AdapterState :=
  let texture_id := t.sharedHandle
  if (dictGet st.textures texture_id).isSome then
    { st with textures := dictErase st.textures texture_id }
  else st

/-- ImDrawData.scale_clip_rects with an ImVec2 of two equal components s:
every clip rectangle coordinate is multiplied by s (external ImGui call,
modelled by its documented effect on the draw data). -/
def scaleClipRect (s : ℚ) (c : ClipRect) : ClipRect :=
  ⟨c.x * s, c.y * s, c.z * s, c.w * s⟩

/-- Scaling of one draw command: only the clip rectangle changes. -/
def scaleCmd (s : ℚ) (c : DrawCmd) : DrawCmd :=
  { c with clipRect := scaleClipRect s c.clipRect }

/-- Scaling of one command list. -/
def scaleList (s : ℚ) (dl : DrawList) : DrawList :=
  { dl with cmdBuffer := dl.cmdBuffer.map (scaleCmd s) }

/-- Scaling of the whole draw data. -/
def scaleClipRects (s : ℚ) (dd : DrawData) : DrawData :=
  ⟨dd.cmdLists.map (scaleList s)⟩

/-- The GPU calls issued for one draw command whose texture id resolved to
the entry en: a render pass on the frame buffer that binds the pipeline,
writes the uniforms, sets the render state (viewport from the frame buffer
dimensions, scissor rectangle from the int-truncated clip rectangle) and
issues one indexed draw. -/
def cmdEvents (fb : FrameBuffer) (en : TexEntry) (c : DrawCmd) : List GpuEvent :=
  [.beginRenderPassLoad, .bindPipeline, .writeProj,
   .writeTexture en.texture.sharedHandle, .writeSampler en.sampler,
   .setRenderState fb.width fb.height
     (pyInt c.clipRect.x) (pyInt c.clipRect.y) (pyInt c.clipRect.z) (pyInt c.clipRect.w),
   .drawIndexed c.elemCount c.idxOffset]

/-- The inner loop of ImguiAdapter.render over a cmd_buffer: each command's
texture id is resolved in self._textures; a missing entry raises the
ValueError immediately, aborting the remaining commands. -/
def renderCmds (fb : FrameBuffer) (tex : TexMap) :
    List DrawCmd → List GpuEvent × Option AdapterError
  | [] => ([], none)
  | c :: cs =>
    match dictGet tex c.textureId with
    | none => ([], some .textureNotRegistered)
    | some en =>
        let r := renderCmds fb tex cs
        (cmdEvents fb en c ++ r.1, r.2)

/-- One iteration of the outer loop of ImguiAdapter.render: the batch's
vertex and index bytes are uploaded to two freshly created buffers, then its
cmd_buffer is processed. -/
def renderBatch (fb : FrameBuffer) (tex : TexMap) (dl : DrawList) :
    List GpuEvent × Option AdapterError :=
  let r := renderCmds fb tex dl.cmdBuffer
  (.createVertexBuffer dl.vtxBytes :: .createIndexBuffer dl.idxBytes :: r.1, r.2)

/-- The outer loop of ImguiAdapter.render over draw_data.cmd_lists, aborting
at the first failing batch. -/
def renderBatches (fb : FrameBuffer) (tex : TexMap) :
    List DrawList → List GpuEvent × Option AdapterError
  | [] => ([], none)
  | dl :: dls =>
    let r := renderBatch fb tex dl
    match r.2 with
    | some e => (r.1, some e)
    | none =>
        let rs := renderBatches fb tex dls
        (r.1 ++ rs.1, rs.2)

/-- ImguiAdapter.render given the frame buffer, registered textures and
framebuffer scale the method reads from self: acquire the surface image,
create a command encoder, scale the clip rectangles, clear the frame buffer,
process every batch, and only on success blit to the surface, finish and
submit the encoder, and present. -/
def renderFrame (fb : FrameBuffer) (tex : TexMap) (s : ℚ) (dd : DrawData) :
    List GpuEvent × Option AdapterError :=
  let dd2 := scaleClipRects s dd
  let r := renderBatches fb tex dd2.cmdLists
  match r.2 with
  | some e => ([.acquireNextImage, .createCommandEncoder, .beginRenderPassClear] ++ r.1, some e)
  | none =>
      ([.acquireNextImage, .createCommandEncoder, .beginRenderPassClear] ++ r.1
        ++ [.blit, .finishEncoder, .submitCommandBuffer, .present], none)

/-- State-level view of ImguiAdapter.render.  The method assigns no attribute
of self, so the adapter state is returned unchanged in every case.  When no
frame buffer was ever created the call dies inside the external GPU library
on the unconfigured surface before reaching any adapter logic, so only the
first call is recorded and no adapter-originated error arises. -/
def render (st : AdapterState) (dd : DrawData) :
    AdapterState × List GpuEvent × Option AdapterError :=
  match st.frameBuffer with
  | none => (st, [.acquireNextImage], none)
  | some fb => (st, renderFrame fb st.textures st.ioFbScale dd)

/-- ImguiAdapter.resize (fb_scale defaults to 4 in the source): update
io.display_size and io.display_framebuffer_scale, wait on the device, then
either configure the surface to width * fb_scale by height * fb_scale and
store a fresh frame buffer of those dimensions (both dimensions positive) or
unconfigure the surface. -/
def resize (st : AdapterState) (width height : Int) (fb_scale : ℚ) :
    AdapterState × List GpuEvent :=
  let st1 := { st with
      ioDisplaySize := ((width : ℚ), (height : ℚ))
      ioFbScale := fb_scale }
  if 0 < width ∧ 0 < height then
    ({ st1 with
        surfaceConfig := some ((width : ℚ) * fb_scale, (height : ℚ) * fb_scale)
        frameBuffer := some ⟨(width : ℚ) * fb_scale, (height : ℚ) * fb_scale⟩ },
     [.deviceWait, .surfaceConfigure ((width : ℚ) * fb_scale) ((height : ℚ) * fb_scale),
      .createFrameBuffer ((width : ℚ) * fb_scale) ((height : ℚ) * fb_scale)])
  else
    ({ st1 with surfaceConfig := none }, [.deviceWait, .surfaceUnconfigure])

/-- ImguiAdapter.refresh_font_texture: unregister the previous font texture
when one exists, create the new font texture on the device, register it and
record it as the current font texture (the io.fonts bookkeeping lives in the
external ImGui library). -/
def refresh_font_texture (st : AdapterState) (newTex : Texture) :
    AdapterState × List GpuEvent :=
  let st1 :=
    match st.fontTexture with
    | some t => unregister_texture st t
    | none => st
  let r := register_texture { st1 with fontTexture := some newTex } newTex
  (r.1, .createTexture :: r.2)

/-- ImguiAdapter.__init__: raise the RuntimeError when no ImGui context is
current; otherwise start from an empty texture dict, create the surface,
input layout, shader program and pipeline on the device, refresh the font
texture (fontTex stands for the device-created font atlas texture) and call
resize with the window dimensions and the default fb_scale of 4. -/
def init (hasContext : Bool) (winW winH : Int) (fontTex : Texture) :
    Except AdapterError (AdapterState × List GpuEvent) :=
  if hasContext then
    let st0 : AdapterState :=
      { textures := []
        frameBuffer := none
        surfaceConfig := none
        ioDisplaySize := (0, 0)
        ioFbScale := 1
        fontTexture := none
        nextSampler := 0 }
    let rFont := refresh_font_texture st0 fontTex
    let rResize := resize rFont.1 winW winH 4
    .ok (rResize.1,
      [.createSurface, .createInputLayout, .loadProgram, .createRenderPipeline]
        ++ rFont.2 ++ rResize.2)
  else
    .error .noImguiContext

end ImguiAdapter

/-- Events that end a frame: finishing the encoder, submitting the command
buffer, presenting the surface. -/
def isTerminalEvent : GpuEvent → Bool
  | .finishEncoder => true
  | .submitCommandBuffer => true
  | .present => true
  | _ => false

/-- Events that change the surface configuration. -/
def isSurfaceConfigChange : GpuEvent → Bool
  | .surfaceConfigure _ _ => true
  | .surfaceUnconfigure => true
  | _ => false

/-- Number of indexed-draw calls in a trace. -/
def countDrawIndexed (tr : List GpuEvent) : Nat :=
  tr.countP fun e => match e with | .drawIndexed _ _ => true | _ => false

/-- Number of pipeline binds in a trace. -/
def countBindPipeline (tr : List GpuEvent) : Nat :=
  tr.countP fun e => match e with | .bindPipeline => true | _ => false

/-- Number of vertex-buffer creations in a trace. -/
def countCreateVertexBuffer (tr : List GpuEvent) : Nat :=
  tr.countP fun e => match e with | .createVertexBuffer _ => true | _ => false

/-- Number of index-buffer creations in a trace. -/
def countCreateIndexBuffer (tr : List GpuEvent) : Nat :=
  tr.countP fun e => match e with | .createIndexBuffer _ => true | _ => false

/-- The subsequence of set-render-state events of a trace. -/
def setRenderStatesOf (tr : List GpuEvent) : List GpuEvent :=
  tr.filter fun e => match e with | .setRenderState _ _ _ _ _ _ => true | _ => false

/-- The event kinds that the per-command render pass can issue. -/
def isPerCmdEvent : GpuEvent → Bool
  | .beginRenderPassLoad => true
  | .bindPipeline => true
  | .writeProj => true
  | .writeTexture _ => true
  | .writeSampler _ => true
  | .setRenderState _ _ _ _ _ _ => true
  | .drawIndexed _ _ => true
  | _ => false

theorem dictGet_dictInsert (m : TexMap) (k key : Nat) (v : TexEntry) :
    dictGet (dictInsert m k v) key = if key = k then some v else dictGet m key := by
  induction m with
  | nil => simp [dictInsert, dictGet]
  | cons e rest ih =>
    by_cases h : e.1 = k
    · simp only [dictInsert, if_pos h, dictGet]
      by_cases hk : key = k
      · simp [hk]
      · simp [hk, h]
    · simp only [dictInsert, if_neg h, dictGet, ih]
      by_cases hk : key = e.1
      · have hkk : ¬ key = k := by rw [hk]; exact h
        simp [hk, hkk, h]
      · simp [hk]

theorem dictGet_dictErase (m : TexMap) (k key : Nat) :
    dictGet (dictErase m k) key = if key = k then none else dictGet m key := by
  induction m with
  | nil => simp [dictErase, dictGet]
  | cons e rest ih =>
    by_cases h : e.1 = k
    · simp only [dictErase, if_pos h, dictGet, ih]
      by_cases hk : key = k
      · simp [hk]
      · have hke : ¬ key = e.1 := by rw [h]; exact hk
        simp [hk, hke]
    · simp only [dictErase, if_neg h, dictGet, ih]
      by_cases hk : key = e.1
      · have hkk : ¬ key = k := by rw [hk]; exact h
        simp [hk, hkk, h]
      · simp [hk]

theorem unregister_texture_lookup (st : AdapterState) (t : Texture) (key : Nat) :
    dictGet (ImguiAdapter.unregister_texture st t).textures key =
      if key = t.sharedHandle then none else dictGet st.textures key := by
  unfold ImguiAdapter.unregister_texture
  by_cases h : (dictGet st.textures t.sharedHandle).isSome
  · simp only [h, if_pos]
    simpa using dictGet_dictErase st.textures t.sharedHandle key
  · simp only [h, if_neg, Bool.false_eq_true, not_false_iff]
    by_cases hk : key = t.sharedHandle
    · rw [if_pos hk, hk]
      exact Option.not_isSome_iff_eq_none.mp h
    · rw [if_neg hk]

theorem unregister_texture_of_not_found (st : AdapterState) (t : Texture)
    (h : dictGet st.textures t.sharedHandle = none) :
    ImguiAdapter.unregister_texture st t = st := by
  unfold ImguiAdapter.unregister_texture
  simp [h]

/-- Claim C8: the registered-texture mapping changes only through explicit
registration and unregistration: register_texture adds (or overwrites)
exactly the entry keyed by the texture's shared handle value (pairing the
texture with the freshly created sampler), unregister_texture removes at
most that one entry, and render neither adds nor removes entries (it leaves
the whole adapter state unchanged). -/
theorem texture_map_only_explicit_mutation :
    (∀ (st : AdapterState) (t : Texture) (key : Nat),
        dictGet (ImguiAdapter.register_texture st t).1.textures key =
          if key = t.sharedHandle then some ⟨t, st.nextSampler⟩
          else dictGet st.textures key) ∧
    (∀ (st : AdapterState) (t : Texture) (key : Nat),
        dictGet (ImguiAdapter.unregister_texture st t).textures key =
          if key = t.sharedHandle then none else dictGet st.textures key) ∧
    (∀ (st : AdapterState) (dd : DrawData), (ImguiAdapter.render st dd).1 = st) := by
  refine ⟨?_, ?_, ?_⟩
  · intro st t key
    simpa using dictGet_dictInsert st.textures t.sharedHandle key ⟨t, st.nextSampler⟩
  · intro st t key
    exact unregister_texture_lookup st t key
  · intro st dd
    unfold ImguiAdapter.render
    cases st.frameBuffer <;> rfl

/-- Claim C9: unregistering a texture whose id is absent from the mapping
raises no error and leaves the adapter unchanged, and unregistering twice in
a row has the same effect as unregistering once. -/
theorem unregister_texture_idempotent :
    (∀ (st : AdapterState) (t : Texture),
        dictGet st.textures t.sharedHandle = none →
        ImguiAdapter.unregister_texture st t = st) ∧
    (∀ (st : AdapterState) (t : Texture),
        ImguiAdapter.unregister_texture (ImguiAdapter.unregister_texture st t) t =
          ImguiAdapter.unregister_texture st t) := by
  constructor
  · exact unregister_texture_of_not_found
  · intro st t
    apply unregister_texture_of_not_found
    rw [unregister_texture_lookup]
    simp

/-- Witness for unregister_texture_idempotent: on an adapter with an empty
mapping, unregistering the texture with handle 5 is a no-op. -/
theorem unregister_texture_idempotent_witness :
    dictGet (AdapterState.mk [] none none (0, 0) 1 none 0).textures
        (Texture.mk 5).sharedHandle = none ∧
    ImguiAdapter.unregister_texture (AdapterState.mk [] none none (0, 0) 1 none 0)
        (Texture.mk 5) = AdapterState.mk [] none none (0, 0) 1 none 0 :=
  ⟨rfl, unregister_texture_idempotent.1 (AdapterState.mk [] none none (0, 0) 1 none 0)
    (Texture.mk 5) rfl⟩

/-- Claim C3: resize with two positive dimensions configures the surface to
width * fb_scale by height * fb_scale and stores a fresh frame buffer of
those dimensions; a zero dimension tears the surface configuration down
(surface.unconfigure is called and the surface is never configured). -/
theorem resize_configures_or_tears_down :
    ∀ (st : AdapterState) (width height : Int) (s : ℚ),
      (0 < width ∧ 0 < height →
        (ImguiAdapter.resize st width height s).1.surfaceConfig
            = some ((width : ℚ) * s, (height : ℚ) * s) ∧
        (ImguiAdapter.resize st width height s).1.frameBuffer
            = some ⟨(width : ℚ) * s, (height : ℚ) * s⟩ ∧
        GpuEvent.surfaceConfigure ((width : ℚ) * s) ((height : ℚ) * s)
            ∈ (ImguiAdapter.resize st width height s).2 ∧
        GpuEvent.createFrameBuffer ((width : ℚ) * s) ((height : ℚ) * s)
            ∈ (ImguiAdapter.resize st width height s).2) ∧
      (width = 0 ∨ height = 0 →
        (ImguiAdapter.resize st width height s).1.surfaceConfig = none ∧
        GpuEvent.surfaceUnconfigure ∈ (ImguiAdapter.resize st width height s).2 ∧
        ∀ a b : ℚ, GpuEvent.surfaceConfigure a b
            ∉ (ImguiAdapter.resize st width height s).2) := by
  intro st width height s
  constructor
  · intro h
    simp [ImguiAdapter.resize, h]
  · intro h
    have hneg : ¬ (0 < width ∧ 0 < height) := by omega
    simp [ImguiAdapter.resize, hneg]

/-- Witness for resize_configures_or_tears_down: a 2 by 3 resize at scale 1
configures the surface, and a resize with zero width unconfigures it. -/
theorem resize_configures_or_tears_down_witness :
    ((0 : Int) < 2 ∧ (0 : Int) < 3) ∧
    (ImguiAdapter.resize (AdapterState.mk [] none none (0, 0) 1 none 0) 2 3 1).1.surfaceConfig
        = some (((2 : Int) : ℚ) * 1, ((3 : Int) : ℚ) * 1) ∧
    ((0 : Int) = 0 ∨ (5 : Int) = 0) ∧
    (ImguiAdapter.resize (AdapterState.mk [] none none (0, 0) 1 none 0) 0 5 1).1.surfaceConfig
        = none :=
  ⟨⟨by decide, by decide⟩,
   ((resize_configures_or_tears_down (AdapterState.mk [] none none (0, 0) 1 none 0)
      2 3 1).1 ⟨by decide, by decide⟩).1,
   Or.inl rfl,
   ((resize_configures_or_tears_down (AdapterState.mk [] none none (0, 0) 1 none 0)
      0 5 1).2 (Or.inl rfl)).1⟩

/-- Claim C6: every execution of resize performs a device wait, and any
surface configuration change in the resize trace is preceded by that wait. -/
theorem resize_waits_before_surface_change :
    ∀ (st : AdapterState) (width height : Int) (s : ℚ),
      GpuEvent.deviceWait ∈ (ImguiAdapter.resize st width height s).2 ∧
      ∀ (pre post : List GpuEvent) (e : GpuEvent),
        (ImguiAdapter.resize st width height s).2 = pre ++ e :: post →
        isSurfaceConfigChange e = true →
        GpuEvent.deviceWait ∈ pre := by
  intro st width height s
  by_cases h : 0 < width ∧ 0 < height
  · constructor
    · simp [ImguiAdapter.resize, h]
    · intro pre post e heq hcfg
      rw [ImguiAdapter.resize] at heq
      simp only [h, if_pos] at heq
      match pre, heq with
      | [], heq =>
        rw [List.nil_append] at heq
        cases heq
        simp [isSurfaceConfigChange] at hcfg
      | a :: pre2, heq =>
        rw [List.cons_append] at heq
        injection heq with h1 h2
        rw [h1]
        exact List.mem_cons_self _ _
  · constructor
    · simp [ImguiAdapter.resize, h]
    · intro pre post e heq hcfg
      rw [ImguiAdapter.resize] at heq
      simp only [h, if_neg] at heq
      match pre, heq with
      | [], heq =>
        rw [List.nil_append] at heq
        cases heq
        simp [isSurfaceConfigChange] at hcfg
      | a :: pre2, heq =>
        rw [List.cons_append] at heq
        injection heq with h1 h2
        rw [h1]
        exact List.mem_cons_self _ _

/-- Witness for resize_waits_before_surface_change: in the trace of a 0 by 5
resize, the surface unconfiguration is preceded by the device wait. -/
theorem resize_waits_before_surface_change_witness :
    (ImguiAdapter.resize (AdapterState.mk [] none none (0, 0) 1 none 0) 0 5 1).2
        = [GpuEvent.deviceWait] ++ GpuEvent.surfaceUnconfigure :: [] ∧
    isSurfaceConfigChange GpuEvent.surfaceUnconfigure = true ∧
    GpuEvent.deviceWait ∈ [GpuEvent.deviceWait] :=
  ⟨rfl, rfl,
   (resize_waits_before_surface_change (AdapterState.mk [] none none (0, 0) 1 none 0)
      0 5 1).2 [GpuEvent.deviceWait] [] GpuEvent.surfaceUnconfigure rfl rfl⟩

/-- Claim C10: a resize with a non-positive dimension leaves the stored frame
buffer untouched, unconfigures the surface, creates no frame buffer, and
still updates the ImGui display size and framebuffer scale. -/
theorem resize_nonpositive_preserves_frame_buffer :
    ∀ (st : AdapterState) (width height : Int) (s : ℚ),
      width ≤ 0 ∨ height ≤ 0 →
      (ImguiAdapter.resize st width height s).1.frameBuffer = st.frameBuffer ∧
      (ImguiAdapter.resize st width height s).1.surfaceConfig = none ∧
      (ImguiAdapter.resize st width height s).1.ioDisplaySize
          = ((width : ℚ), (height : ℚ)) ∧
      (ImguiAdapter.resize st width height s).1.ioFbScale = s ∧
      (∀ a b : ℚ, GpuEvent.createFrameBuffer a b
          ∉ (ImguiAdapter.resize st width height s).2) ∧
      GpuEvent.surfaceUnconfigure ∈ (ImguiAdapter.resize st width height s).2 := by
  intro st width height s h
  have hneg : ¬ (0 < width ∧ 0 < height) := by omega
  simp [ImguiAdapter.resize, hneg]

theorem renderCmds_error_cases (fb : FrameBuffer) (tex : TexMap) (cs : List DrawCmd) :
    (ImguiAdapter.renderCmds fb tex cs).2 = none ∨
    (ImguiAdapter.renderCmds fb tex cs).2 = some AdapterError.textureNotRegistered := by
  induction cs with
  | nil => exact Or.inl rfl
  | cons c cs ih =>
    rw [ImguiAdapter.renderCmds]
    cases h : dictGet tex c.textureId with
    | none => exact Or.inr rfl
    | some en => simpa using ih

theorem renderCmds_error_iff (fb : FrameBuffer) (tex : TexMap) (cs : List DrawCmd) :
    (ImguiAdapter.renderCmds fb tex cs).2 = some AdapterError.textureNotRegistered ↔
    ∃ c ∈ cs, dictGet tex c.textureId = none := by
  induction cs with
  | nil => simp [ImguiAdapter.renderCmds]
  | cons c cs ih =>
    rw [ImguiAdapter.renderCmds]
    cases h : dictGet tex c.textureId with
    | none => simp [h]
    | some en => simp [h, ih]

theorem renderBatch_err (fb : FrameBuffer) (tex : TexMap) (dl : DrawList) :
    (ImguiAdapter.renderBatch fb tex dl).2 = (ImguiAdapter.renderCmds fb tex dl.cmdBuffer).2 :=
  rfl

theorem renderBatches_error_cases (fb : FrameBuffer) (tex : TexMap) (dls : List DrawList) :
    (ImguiAdapter.renderBatches fb tex dls).2 = none ∨
    (ImguiAdapter.renderBatches fb tex dls).2 = some AdapterError.textureNotRegistered := by
  induction dls with
  | nil => exact Or.inl rfl
  | cons dl dls ih =>
    rw [ImguiAdapter.renderBatches]
    cases h : (ImguiAdapter.renderBatch fb tex dl).2 with
    | none => simpa using ih
    | some e =>
      have he : e = AdapterError.textureNotRegistered := by
        rcases renderCmds_error_cases fb tex dl.cmdBuffer with h2 | h2 <;>
          rw [← renderBatch_err, h] at h2
        · exact absurd h2 (by simp)
        · exact Option.some_inj.mp h2
      subst he
      simp [h]

theorem renderBatches_error_iff (fb : FrameBuffer) (tex : TexMap) (dls : List DrawList) :
    (ImguiAdapter.renderBatches fb tex dls).2 = some AdapterError.textureNotRegistered ↔
    ∃ dl ∈ dls, ∃ c ∈ dl.cmdBuffer, dictGet tex c.textureId = none := by
  induction dls with
  | nil => simp [ImguiAdapter.renderBatches]
  | cons dl dls ih =>
    rw [ImguiAdapter.renderBatches]
    cases h : (ImguiAdapter.renderBatch fb tex dl).2 with
    | none =>
      have hdl : ¬ ∃ c ∈ dl.cmdBuffer, dictGet tex c.textureId = none := by
        rw [← renderCmds_error_iff fb tex dl.cmdBuffer, ← renderBatch_err, h]
        simp
      simp [h, ih, hdl]
    | some e =>
      have he : e = AdapterError.textureNotRegistered := by
        rcases renderCmds_error_cases fb tex dl.cmdBuffer with h2 | h2 <;>
          rw [← renderBatch_err, h] at h2
        · exact absurd h2 (by simp)
        · exact Option.some_inj.mp h2
      subst he
      have hdl : ∃ c ∈ dl.cmdBuffer, dictGet tex c.textureId = none := by
        rw [← renderCmds_error_iff fb tex dl.cmdBuffer, ← renderBatch_err, h]
      simp [h, hdl]

theorem renderFrame_err (fb : FrameBuffer) (tex : TexMap) (s : ℚ) (dd : DrawData) :
    (ImguiAdapter.renderFrame fb tex s dd).2 =
      (ImguiAdapter.renderBatches fb tex (ImguiAdapter.scaleClipRects s dd).cmdLists).2 := by
  rw [ImguiAdapter.renderFrame]
  cases h : (ImguiAdapter.renderBatches fb tex (ImguiAdapter.scaleClipRects s dd).cmdLists).2 <;>
    simp [h]

theorem scaleCmd_textureId (s : ℚ) (c : DrawCmd) :
    (ImguiAdapter.scaleCmd s c).textureId = c.textureId :=
  rfl

theorem exists_unregistered_scaled (tex : TexMap) (s : ℚ) (dd : DrawData) :
    (∃ dl ∈ (ImguiAdapter.scaleClipRects s dd).cmdLists,
        ∃ c ∈ dl.cmdBuffer, dictGet tex c.textureId = none) ↔
    ∃ dl ∈ dd.cmdLists, ∃ c ∈ dl.cmdBuffer, dictGet tex c.textureId = none := by
  simp [ImguiAdapter.scaleClipRects, ImguiAdapter.scaleList, scaleCmd_textureId]

/-- Witness for resize_nonpositive_preserves_frame_buffer: a 0 by 5 resize
keeps the previously stored 7 by 9 frame buffer. -/
theorem resize_nonpositive_preserves_frame_buffer_witness :
    ((0 : Int) ≤ 0 ∨ (5 : Int) ≤ 0) ∧
    (ImguiAdapter.resize
        (AdapterState.mk [] (some (FrameBuffer.mk 7 9)) (some (7, 9)) (7, 9) 1 none 0)
        0 5 1).1.frameBuffer = some (FrameBuffer.mk 7 9) :=
  ⟨Or.inl (by decide),
   (resize_nonpositive_preserves_frame_buffer
      (AdapterState.mk [] (some (FrameBuffer.mk 7 9)) (some (7, 9)) (7, 9) 1 none 0)
      0 5 1 (Or.inl (by decide))).1⟩

/-- Claim C1: render raises the ValueError exactly when some draw command in
some command list of the draw data carries a texture id with no entry in the
registered-texture mapping; when every id is registered the error is never
raised. -/
theorem render_unregistered_texture_error_iff :
    ∀ (fb : FrameBuffer) (tex : TexMap) (s : ℚ) (dd : DrawData),
      (ImguiAdapter.renderFrame fb tex s dd).2 = some AdapterError.textureNotRegistered ↔
      ∃ dl ∈ dd.cmdLists, ∃ c ∈ dl.cmdBuffer, dictGet tex c.textureId = none := by
  intro fb tex s dd
  rw [renderFrame_err, renderBatches_error_iff, exists_unregistered_scaled]

theorem mem_cmdEvents_perCmd (fb : FrameBuffer) (en : TexEntry) (c : DrawCmd)
    (e : GpuEvent) (h : e ∈ ImguiAdapter.cmdEvents fb en c) : isPerCmdEvent e = true := by
  simp only [ImguiAdapter.cmdEvents, List.mem_cons, List.not_mem_nil, or_false] at h
  rcases h with rfl | rfl | rfl | rfl | rfl | rfl | rfl <;> rfl

theorem mem_renderCmds_perCmd (fb : FrameBuffer) (tex : TexMap) (cs : List DrawCmd)
    (e : GpuEvent) (h : e ∈ (ImguiAdapter.renderCmds fb tex cs).1) :
    isPerCmdEvent e = true := by
  induction cs with
  | nil => simp [ImguiAdapter.renderCmds] at h
  | cons c cs ih =>
    rw [ImguiAdapter.renderCmds] at h
    cases hg : dictGet tex c.textureId with
    | none => rw [hg] at h; simp at h
    | some en =>
      rw [hg] at h
      simp only [List.mem_append] at h
      rcases h with h | h
      · exact mem_cmdEvents_perCmd fb en c e h
      · exact ih h

theorem mem_renderBatches_cases (fb : FrameBuffer) (tex : TexMap) (dls : List DrawList)
    (e : GpuEvent) (h : e ∈ (ImguiAdapter.renderBatches fb tex dls).1) :
    isPerCmdEvent e = true ∨ (∃ d, e = GpuEvent.createVertexBuffer d) ∨
      ∃ d, e = GpuEvent.createIndexBuffer d := by
  induction dls with
  | nil => simp [ImguiAdapter.renderBatches] at h
  | cons dl dls ih =>
    rw [ImguiAdapter.renderBatches] at h
    have hbatch : ∀ ev, ev ∈ (ImguiAdapter.renderBatch fb tex dl).1 →
        isPerCmdEvent ev = true ∨ (∃ d, ev = GpuEvent.createVertexBuffer d) ∨
          ∃ d, ev = GpuEvent.createIndexBuffer d := by
      intro ev hev
      rw [ImguiAdapter.renderBatch] at hev
      simp only [List.mem_cons] at hev
      rcases hev with rfl | rfl | hev
      · exact Or.inr (Or.inl ⟨dl.vtxBytes, rfl⟩)
      · exact Or.inr (Or.inr ⟨dl.idxBytes, rfl⟩)
      · exact Or.inl (mem_renderCmds_perCmd fb tex dl.cmdBuffer ev hev)
    cases hg : (ImguiAdapter.renderBatch fb tex dl).2 with
    | some err =>
      rw [hg] at h
      exact hbatch e h
    | none =>
      rw [hg] at h
      simp only [List.mem_append] at h
      rcases h with h | h
      · exact hbatch e h
      · exact ih h

/-- Claim C2: when render fails, the frame is aborted atomically: the trace
of the failing call contains no encoder finish, no command-buffer submission
and no surface present. -/
theorem render_error_aborts_frame :
    ∀ (fb : FrameBuffer) (tex : TexMap) (s : ℚ) (dd : DrawData) (e : AdapterError),
      (ImguiAdapter.renderFrame fb tex s dd).2 = some e →
      GpuEvent.finishEncoder ∉ (ImguiAdapter.renderFrame fb tex s dd).1 ∧
      GpuEvent.submitCommandBuffer ∉ (ImguiAdapter.renderFrame fb tex s dd).1 ∧
      GpuEvent.present ∉ (ImguiAdapter.renderFrame fb tex s dd).1 := by
  intro fb tex s dd e herr
  cases hb : (ImguiAdapter.renderBatches fb tex (ImguiAdapter.scaleClipRects s dd).cmdLists).2 with
  | none => rw [renderFrame_err, hb] at herr; exact absurd herr (by simp)
  | some e2 =>
    have htr : (ImguiAdapter.renderFrame fb tex s dd).1 =
        [GpuEvent.acquireNextImage, GpuEvent.createCommandEncoder,
         GpuEvent.beginRenderPassClear] ++
        (ImguiAdapter.renderBatches fb tex (ImguiAdapter.scaleClipRects s dd).cmdLists).1 := by
      rw [ImguiAdapter.renderFrame]
      simp [hb]
    refine ⟨?_, ?_, ?_⟩ <;> rw [htr] <;> intro hmem <;>
      rcases List.mem_append.mp hmem with hpre | hbat
    · simp at hpre
    · rcases mem_renderBatches_cases _ _ _ _ hbat with hk | ⟨d, hk⟩ | ⟨d, hk⟩ <;>
        simp [isPerCmdEvent] at hk
    · simp at hpre
    · rcases mem_renderBatches_cases _ _ _ _ hbat with hk | ⟨d, hk⟩ | ⟨d, hk⟩ <;>
        simp [isPerCmdEvent] at hk
    · simp at hpre
    · rcases mem_renderBatches_cases _ _ _ _ hbat with hk | ⟨d, hk⟩ | ⟨d, hk⟩ <;>
        simp [isPerCmdEvent] at hk

/-- Witness for render_error_aborts_frame: a frame whose only command holds
the unregistered texture id 0 fails, and its trace contains neither a finish,
nor a submission, nor a present. -/
theorem render_error_aborts_frame_witness :
    (ImguiAdapter.renderFrame (FrameBuffer.mk 1 1) [] 1
        (DrawData.mk [DrawList.mk [] []
          [DrawCmd.mk 0 (ClipRect.mk 0 0 0 0) 3 0]])).2
      = some AdapterError.textureNotRegistered ∧
    GpuEvent.finishEncoder ∉ (ImguiAdapter.renderFrame (FrameBuffer.mk 1 1) [] 1
        (DrawData.mk [DrawList.mk [] []
          [DrawCmd.mk 0 (ClipRect.mk 0 0 0 0) 3 0]])).1 ∧
    GpuEvent.submitCommandBuffer ∉ (ImguiAdapter.renderFrame (FrameBuffer.mk 1 1) [] 1
        (DrawData.mk [DrawList.mk [] []
          [DrawCmd.mk 0 (ClipRect.mk 0 0 0 0) 3 0]])).1 ∧
    GpuEvent.present ∉ (ImguiAdapter.renderFrame (FrameBuffer.mk 1 1) [] 1
        (DrawData.mk [DrawList.mk [] []
          [DrawCmd.mk 0 (ClipRect.mk 0 0 0 0) 3 0]])).1 :=
  ⟨rfl,
   render_error_aborts_frame (FrameBuffer.mk 1 1) [] 1
     (DrawData.mk [DrawList.mk [] [] [DrawCmd.mk 0 (ClipRect.mk 0 0 0 0) 3 0]])
     AdapterError.textureNotRegistered rfl⟩

theorem renderCmds_cons_some (fb : FrameBuffer) (tex : TexMap) (c : DrawCmd)
    (cs : List DrawCmd) (en : TexEntry) (hg : dictGet tex c.textureId = some en) :
    ImguiAdapter.renderCmds fb tex (c :: cs) =
      (ImguiAdapter.cmdEvents fb en c ++ (ImguiAdapter.renderCmds fb tex cs).1,
       (ImguiAdapter.renderCmds fb tex cs).2) := by
  rw [ImguiAdapter.renderCmds, hg]

theorem renderBatches_cons_ok (fb : FrameBuffer) (tex : TexMap) (dl : DrawList)
    (dls : List DrawList) (h : (ImguiAdapter.renderBatch fb tex dl).2 = none) :
    ImguiAdapter.renderBatches fb tex (dl :: dls) =
      ((ImguiAdapter.renderBatch fb tex dl).1 ++ (ImguiAdapter.renderBatches fb tex dls).1,
       (ImguiAdapter.renderBatches fb tex dls).2) := by
  rw [ImguiAdapter.renderBatches, h]

theorem renderBatches_ok_parts (fb : FrameBuffer) (tex : TexMap) (dl : DrawList)
    (dls : List DrawList) (h : (ImguiAdapter.renderBatches fb tex (dl :: dls)).2 = none) :
    (ImguiAdapter.renderBatch fb tex dl).2 = none ∧
    (ImguiAdapter.renderBatches fb tex dls).2 = none := by
  cases hg : (ImguiAdapter.renderBatch fb tex dl).2 with
  | none =>
    rw [renderBatches_cons_ok fb tex dl dls hg] at h
    exact ⟨rfl, h⟩
  | some e =>
    rw [ImguiAdapter.renderBatches, hg] at h
    exact absurd h (by simp)

theorem renderFrame_ok_trace (fb : FrameBuffer) (tex : TexMap) (s : ℚ) (dd : DrawData)
    (h : (ImguiAdapter.renderBatches fb tex (ImguiAdapter.scaleClipRects s dd).cmdLists).2
          = none) :
    (ImguiAdapter.renderFrame fb tex s dd).1 =
      [GpuEvent.acquireNextImage, GpuEvent.createCommandEncoder,
       GpuEvent.beginRenderPassClear] ++
      (ImguiAdapter.renderBatches fb tex (ImguiAdapter.scaleClipRects s dd).cmdLists).1 ++
      [GpuEvent.blit, GpuEvent.finishEncoder, GpuEvent.submitCommandBuffer,
       GpuEvent.present] := by
  rw [ImguiAdapter.renderFrame]
  simp [h]

theorem renderCmds_counts (fb : FrameBuffer) (tex : TexMap) (cs : List DrawCmd)
    (h : (ImguiAdapter.renderCmds fb tex cs).2 = none) :
    countDrawIndexed (ImguiAdapter.renderCmds fb tex cs).1 = cs.length ∧
    countBindPipeline (ImguiAdapter.renderCmds fb tex cs).1 = cs.length := by
  induction cs with
  | nil => exact ⟨rfl, rfl⟩
  | cons c cs ih =>
    cases hg : dictGet tex c.textureId with
    | none =>
      rw [ImguiAdapter.renderCmds, hg] at h
      exact absurd h (by simp)
    | some en =>
      rw [renderCmds_cons_some fb tex c cs en hg] at h ⊢
      obtain ⟨ih1, ih2⟩ := ih h
      have hd1 : countDrawIndexed (ImguiAdapter.cmdEvents fb en c) = 1 := rfl
      have hb1 : countBindPipeline (ImguiAdapter.cmdEvents fb en c) = 1 := rfl
      constructor
      · simp only [countDrawIndexed, List.countP_append, List.length_cons] at ih1 hd1 ⊢
        rw [ih1, hd1]
        omega
      · simp only [countBindPipeline, List.countP_append, List.length_cons] at ih2 hb1 ⊢
        rw [ih2, hb1]
        omega

theorem notPerCmd_count_renderCmds_zero (fb : FrameBuffer) (tex : TexMap)
    (cs : List DrawCmd) (p : GpuEvent → Bool)
    (hp : ∀ e, isPerCmdEvent e = true → p e = false) :
    (ImguiAdapter.renderCmds fb tex cs).1.countP p = 0 := by
  rw [List.countP_eq_zero]
  intro e he
  rw [hp e (mem_renderCmds_perCmd fb tex cs e he)]
  simp

theorem renderBatches_counts (fb : FrameBuffer) (tex : TexMap) (dls : List DrawList)
    (h : (ImguiAdapter.renderBatches fb tex dls).2 = none) :
    countDrawIndexed (ImguiAdapter.renderBatches fb tex dls).1
        = (dls.map fun dl => dl.cmdBuffer.length).sum ∧
    countBindPipeline (ImguiAdapter.renderBatches fb tex dls).1
        = (dls.map fun dl => dl.cmdBuffer.length).sum ∧
    countCreateVertexBuffer (ImguiAdapter.renderBatches fb tex dls).1 = dls.length ∧
    countCreateIndexBuffer (ImguiAdapter.renderBatches fb tex dls).1 = dls.length := by
  induction dls with
  | nil => exact ⟨rfl, rfl, rfl, rfl⟩
  | cons dl dls ih =>
    obtain ⟨h1, h2⟩ := renderBatches_ok_parts fb tex dl dls h
    obtain ⟨ih1, ih2, ih3, ih4⟩ := ih h2
    rw [renderBatches_cons_ok fb tex dl dls h1]
    have hbtrace : (ImguiAdapter.renderBatch fb tex dl).1 =
        GpuEvent.createVertexBuffer dl.vtxBytes :: GpuEvent.createIndexBuffer dl.idxBytes ::
          (ImguiAdapter.renderCmds fb tex dl.cmdBuffer).1 := rfl
    have hc : (ImguiAdapter.renderCmds fb tex dl.cmdBuffer).2 = none := by
      rw [← renderBatch_err]; exact h1
    obtain ⟨hd, hb⟩ := renderCmds_counts fb tex dl.cmdBuffer hc
    refine ⟨?_, ?_, ?_, ?_⟩
    · simp only [countDrawIndexed, List.countP_append] at ih1 ⊢
      rw [hbtrace]
      simp only [List.countP_cons]
      simp only [countDrawIndexed] at hd
      simp [hd, ih1, Nat.add_comm]
    · simp only [countBindPipeline, List.countP_append] at ih2 ⊢
      rw [hbtrace]
      simp only [List.countP_cons]
      simp only [countBindPipeline] at hb
      simp [hb, ih2, Nat.add_comm]
    · simp only [countCreateVertexBuffer, List.countP_append] at ih3 ⊢
      rw [hbtrace]
      simp only [List.countP_cons]
      rw [notPerCmd_count_renderCmds_zero fb tex dl.cmdBuffer _
        (by intro e he; cases e <;> simp [isPerCmdEvent] at he ⊢)]
      simp [ih3, Nat.add_comm]
    · simp only [countCreateIndexBuffer, List.countP_append] at ih4 ⊢
      rw [hbtrace]
      simp only [List.countP_cons]
      rw [notPerCmd_count_renderCmds_zero fb tex dl.cmdBuffer _
        (by intro e he; cases e <;> simp [isPerCmdEvent] at he ⊢)]
      simp [ih4, Nat.add_comm]

theorem scaled_cmd_lengths (s : ℚ) (dd : DrawData) :
    ((ImguiAdapter.scaleClipRects s dd).cmdLists.map fun dl => dl.cmdBuffer.length)
      = dd.cmdLists.map fun dl => dl.cmdBuffer.length := by
  simp [ImguiAdapter.scaleClipRects, ImguiAdapter.scaleList, List.map_map, Function.comp]

theorem renderBatches_ok_of_mem (fb : FrameBuffer) (tex : TexMap) (dls : List DrawList)
    (h : (ImguiAdapter.renderBatches fb tex dls).2 = none) (dl : DrawList)
    (hm : dl ∈ dls) : (ImguiAdapter.renderBatch fb tex dl).2 = none := by
  induction dls with
  | nil => simp at hm
  | cons dl2 dls ih =>
    obtain ⟨h1, h2⟩ := renderBatches_ok_parts fb tex dl2 dls h
    rcases List.mem_cons.mp hm with rfl | hm2
    · exact h1
    · exact ih h2 hm2

theorem scaled_lists_length (s : ℚ) (dd : DrawData) :
    (ImguiAdapter.scaleClipRects s dd).cmdLists.length = dd.cmdLists.length := by
  simp [ImguiAdapter.scaleClipRects]

/-- Claim C4 (amended): for every draw batch processed by render, one
indexed-draw call is issued per draw command of the batch (a batch with n
commands receives n indexed draws, not one per batch), after the batch's
vertex and index bytes are uploaded to two freshly created GPU buffers and
with the pipeline bound once per command. -/
theorem render_one_draw_per_command :
    ∀ (fb : FrameBuffer) (tex : TexMap) (s : ℚ) (dd : DrawData),
      (ImguiAdapter.renderFrame fb tex s dd).2 = none →
      countDrawIndexed (ImguiAdapter.renderFrame fb tex s dd).1
          = (dd.cmdLists.map fun dl => dl.cmdBuffer.length).sum ∧
      countBindPipeline (ImguiAdapter.renderFrame fb tex s dd).1
          = (dd.cmdLists.map fun dl => dl.cmdBuffer.length).sum ∧
      countCreateVertexBuffer (ImguiAdapter.renderFrame fb tex s dd).1
          = dd.cmdLists.length ∧
      countCreateIndexBuffer (ImguiAdapter.renderFrame fb tex s dd).1
          = dd.cmdLists.length ∧
      ∀ dl ∈ (ImguiAdapter.scaleClipRects s dd).cmdLists,
        countDrawIndexed (ImguiAdapter.renderBatch fb tex dl).1 = dl.cmdBuffer.length ∧
        ∃ rest, (ImguiAdapter.renderBatch fb tex dl).1
            = GpuEvent.createVertexBuffer dl.vtxBytes ::
              GpuEvent.createIndexBuffer dl.idxBytes :: rest := by
  intro fb tex s dd h
  rw [renderFrame_err] at h
  have htr := renderFrame_ok_trace fb tex s dd h
  obtain ⟨b1, b2, b3, b4⟩ := renderBatches_counts fb tex _ h
  rw [scaled_cmd_lengths] at b1 b2
  rw [scaled_lists_length] at b3 b4
  refine ⟨?_, ?_, ?_, ?_, ?_⟩
  · rw [htr]
    simp only [countDrawIndexed, List.countP_append] at b1 ⊢
    rw [b1]
    simp [List.countP_cons, List.countP_nil]
  · rw [htr]
    simp only [countBindPipeline, List.countP_append] at b2 ⊢
    rw [b2]
    simp [List.countP_cons, List.countP_nil]
  · rw [htr]
    simp only [countCreateVertexBuffer, List.countP_append] at b3 ⊢
    rw [b3]
    simp [List.countP_cons, List.countP_nil]
  · rw [htr]
    simp only [countCreateIndexBuffer, List.countP_append] at b4 ⊢
    rw [b4]
    simp [List.countP_cons, List.countP_nil]
  · intro dl hm
    have hok := renderBatches_ok_of_mem fb tex _ h dl hm
    have hc : (ImguiAdapter.renderCmds fb tex dl.cmdBuffer).2 = none := by
      rw [← renderBatch_err]; exact hok
    obtain ⟨hd, _⟩ := renderCmds_counts fb tex dl.cmdBuffer hc
    have hbtrace : (ImguiAdapter.renderBatch fb tex dl).1 =
        GpuEvent.createVertexBuffer dl.vtxBytes :: GpuEvent.createIndexBuffer dl.idxBytes ::
          (ImguiAdapter.renderCmds fb tex dl.cmdBuffer).1 := rfl
    refine ⟨?_, ⟨(ImguiAdapter.renderCmds fb tex dl.cmdBuffer).1, hbtrace⟩⟩
    rw [hbtrace]
    simp only [countDrawIndexed, List.countP_cons] at hd ⊢
    rw [hd]
    rfl

/-- Counterexample to claim C4 as stated: a draw data with a single command
list holding two draw commands produces two indexed-draw calls in a
successful render, not exactly one for the batch. -/
theorem render_one_draw_per_batch_counterexample :
    (DrawData.mk [DrawList.mk [9] [2]
        [DrawCmd.mk 1 (ClipRect.mk 0 0 0 0) 3 0,
         DrawCmd.mk 1 (ClipRect.mk 0 0 0 0) 3 3]]).cmdLists.length = 1 ∧
    (ImguiAdapter.renderFrame (FrameBuffer.mk 4 4) [(1, TexEntry.mk (Texture.mk 1) 0)] 1
        (DrawData.mk [DrawList.mk [9] [2]
          [DrawCmd.mk 1 (ClipRect.mk 0 0 0 0) 3 0,
           DrawCmd.mk 1 (ClipRect.mk 0 0 0 0) 3 3]])).2 = none ∧
    countDrawIndexed (ImguiAdapter.renderFrame (FrameBuffer.mk 4 4)
        [(1, TexEntry.mk (Texture.mk 1) 0)] 1
        (DrawData.mk [DrawList.mk [9] [2]
          [DrawCmd.mk 1 (ClipRect.mk 0 0 0 0) 3 0,
           DrawCmd.mk 1 (ClipRect.mk 0 0 0 0) 3 3]])).1 = 2 ∧
    (2 : Nat) ≠ 1 :=
  ⟨rfl, rfl, rfl, by decide⟩

/-- Witness for render_one_draw_per_command: a successful single-command
frame issues the summed number of indexed draws. -/
theorem render_one_draw_per_command_witness :
    (ImguiAdapter.renderFrame (FrameBuffer.mk 5 5) [(2, TexEntry.mk (Texture.mk 2) 0)] 1
        (DrawData.mk [DrawList.mk [7] [8]
          [DrawCmd.mk 2 (ClipRect.mk 0 0 0 0) 6 0]])).2 = none ∧
    countDrawIndexed (ImguiAdapter.renderFrame (FrameBuffer.mk 5 5)
        [(2, TexEntry.mk (Texture.mk 2) 0)] 1
        (DrawData.mk [DrawList.mk [7] [8]
          [DrawCmd.mk 2 (ClipRect.mk 0 0 0 0) 6 0]])).1
      = ((DrawData.mk [DrawList.mk [7] [8]
          [DrawCmd.mk 2 (ClipRect.mk 0 0 0 0) 6 0]]).cmdLists.map
            fun dl => dl.cmdBuffer.length).sum :=
  ⟨rfl,
   (render_one_draw_per_command (FrameBuffer.mk 5 5) [(2, TexEntry.mk (Texture.mk 2) 0)] 1
      (DrawData.mk [DrawList.mk [7] [8] [DrawCmd.mk 2 (ClipRect.mk 0 0 0 0) 6 0]])
      rfl).1⟩

theorem setRenderStatesOf_cmdEvents (fb : FrameBuffer) (en : TexEntry) (c : DrawCmd) :
    setRenderStatesOf (ImguiAdapter.cmdEvents fb en c) =
      [GpuEvent.setRenderState fb.width fb.height (pyInt c.clipRect.x)
        (pyInt c.clipRect.y) (pyInt c.clipRect.z) (pyInt c.clipRect.w)] :=
  rfl

theorem setRenderStatesOf_append (tr1 tr2 : List GpuEvent) :
    setRenderStatesOf (tr1 ++ tr2) = setRenderStatesOf tr1 ++ setRenderStatesOf tr2 := by
  simp [setRenderStatesOf, List.filter_append]

theorem setRenderStatesOf_renderCmds (fb : FrameBuffer) (tex : TexMap)
    (cs : List DrawCmd) (h : (ImguiAdapter.renderCmds fb tex cs).2 = none) :
    setRenderStatesOf (ImguiAdapter.renderCmds fb tex cs).1 =
      cs.map fun c => GpuEvent.setRenderState fb.width fb.height (pyInt c.clipRect.x)
        (pyInt c.clipRect.y) (pyInt c.clipRect.z) (pyInt c.clipRect.w) := by
  induction cs with
  | nil => rfl
  | cons c cs ih =>
    cases hg : dictGet tex c.textureId with
    | none =>
      rw [ImguiAdapter.renderCmds, hg] at h
      exact absurd h (by simp)
    | some en =>
      rw [renderCmds_cons_some fb tex c cs en hg] at h ⊢
      rw [setRenderStatesOf_append, setRenderStatesOf_cmdEvents, ih h]
      rfl

theorem setRenderStatesOf_renderBatches (fb : FrameBuffer) (tex : TexMap)
    (dls : List DrawList) (h : (ImguiAdapter.renderBatches fb tex dls).2 = none) :
    setRenderStatesOf (ImguiAdapter.renderBatches fb tex dls).1 =
      (dls.map fun dl => dl.cmdBuffer.map fun c =>
        GpuEvent.setRenderState fb.width fb.height (pyInt c.clipRect.x)
          (pyInt c.clipRect.y) (pyInt c.clipRect.z) (pyInt c.clipRect.w)).flatten := by
  induction dls with
  | nil => rfl
  | cons dl dls ih =>
    obtain ⟨h1, h2⟩ := renderBatches_ok_parts fb tex dl dls h
    rw [renderBatches_cons_ok fb tex dl dls h1]
    rw [setRenderStatesOf_append]
    have hbatch : setRenderStatesOf (ImguiAdapter.renderBatch fb tex dl).1 =
        setRenderStatesOf (ImguiAdapter.renderCmds fb tex dl.cmdBuffer).1 := rfl
    have hc : (ImguiAdapter.renderCmds fb tex dl.cmdBuffer).2 = none := by
      rw [← renderBatch_err]; exact h1
    rw [hbatch, setRenderStatesOf_renderCmds fb tex dl.cmdBuffer hc, ih h2]
    simp

/-- Claim C5 (amended): for every draw command of a successful render, the
scissor rectangle set on the render state is the integer-truncated clip
rectangle of the command after framebuffer scaling, while the viewport is
taken from the frame buffer dimensions (it is the same for every command and
is not derived from the clip rectangle). -/
theorem render_scissor_and_viewport :
    ∀ (fb : FrameBuffer) (tex : TexMap) (s : ℚ) (dd : DrawData),
      (ImguiAdapter.renderFrame fb tex s dd).2 = none →
      setRenderStatesOf (ImguiAdapter.renderFrame fb tex s dd).1 =
        (dd.cmdLists.map fun dl => dl.cmdBuffer.map fun c =>
          GpuEvent.setRenderState fb.width fb.height
            (pyInt (c.clipRect.x * s)) (pyInt (c.clipRect.y * s))
            (pyInt (c.clipRect.z * s)) (pyInt (c.clipRect.w * s))).flatten := by
  intro fb tex s dd h
  rw [renderFrame_err] at h
  rw [renderFrame_ok_trace fb tex s dd h]
  rw [setRenderStatesOf_append, setRenderStatesOf_append,
    setRenderStatesOf_renderBatches fb tex _ h]
  have hpre : setRenderStatesOf [GpuEvent.acquireNextImage, GpuEvent.createCommandEncoder,
      GpuEvent.beginRenderPassClear] = [] := rfl
  have hsuf : setRenderStatesOf [GpuEvent.blit, GpuEvent.finishEncoder,
      GpuEvent.submitCommandBuffer, GpuEvent.present] = [] := rfl
  rw [hpre, hsuf]
  simp only [ImguiAdapter.scaleClipRects, List.map_map, List.nil_append, List.append_nil]
  congr 1
  apply List.map_congr_left
  intro dl _
  simp only [Function.comp, ImguiAdapter.scaleList, List.map_map]
  apply List.map_congr_left
  intro c _
  rfl

/-- Counterexample to claim C5 as stated: with the same draw command and the
same clip rectangle, two adapters whose frame buffers differ set different
viewports, so the viewport is not derived from the clip rectangle (it comes
from the frame buffer dimensions). -/
theorem render_viewport_not_from_clip_counterexample :
    setRenderStatesOf (ImguiAdapter.renderFrame (FrameBuffer.mk 10 10)
        [(1, TexEntry.mk (Texture.mk 1) 0)] 1
        (DrawData.mk [DrawList.mk [] [] [DrawCmd.mk 1 (ClipRect.mk 1 2 3 4) 3 0]])).1
      = [GpuEvent.setRenderState 10 10 1 2 3 4] ∧
    setRenderStatesOf (ImguiAdapter.renderFrame (FrameBuffer.mk 20 20)
        [(1, TexEntry.mk (Texture.mk 1) 0)] 1
        (DrawData.mk [DrawList.mk [] [] [DrawCmd.mk 1 (ClipRect.mk 1 2 3 4) 3 0]])).1
      = [GpuEvent.setRenderState 20 20 1 2 3 4] ∧
    GpuEvent.setRenderState 10 10 1 2 3 4 ≠ GpuEvent.setRenderState 20 20 1 2 3 4 := by
  refine ⟨?_, ?_, ?_⟩
  · have hb : (ImguiAdapter.renderBatches (FrameBuffer.mk 10 10)
        [(1, TexEntry.mk (Texture.mk 1) 0)]
        (ImguiAdapter.scaleClipRects 1
          (DrawData.mk [DrawList.mk [] []
            [DrawCmd.mk 1 (ClipRect.mk 1 2 3 4) 3 0]])).cmdLists).2 = none := rfl
    rw [renderFrame_ok_trace _ _ _ _ hb]
    rw [setRenderStatesOf_append, setRenderStatesOf_append,
      setRenderStatesOf_renderBatches _ _ _ hb]
    simp [ImguiAdapter.scaleClipRects, ImguiAdapter.scaleList, ImguiAdapter.scaleCmd,
      ImguiAdapter.scaleClipRect, setRenderStatesOf, pyInt]
  · have hb : (ImguiAdapter.renderBatches (FrameBuffer.mk 20 20)
        [(1, TexEntry.mk (Texture.mk 1) 0)]
        (ImguiAdapter.scaleClipRects 1
          (DrawData.mk [DrawList.mk [] []
            [DrawCmd.mk 1 (ClipRect.mk 1 2 3 4) 3 0]])).cmdLists).2 = none := rfl
    rw [renderFrame_ok_trace _ _ _ _ hb]
    rw [setRenderStatesOf_append, setRenderStatesOf_append,
      setRenderStatesOf_renderBatches _ _ _ hb]
    simp [ImguiAdapter.scaleClipRects, ImguiAdapter.scaleList, ImguiAdapter.scaleCmd,
      ImguiAdapter.scaleClipRect, setRenderStatesOf, pyInt]
  · intro hcontra
    have h10 : (10 : ℚ) = 20 := by
      injection hcontra
    norm_num at h10

/-- Witness for render_scissor_and_viewport: a successful single-command
frame sets exactly the render states given by the formula. -/
theorem render_scissor_and_viewport_witness :
    (ImguiAdapter.renderFrame (FrameBuffer.mk 6 6) [(3, TexEntry.mk (Texture.mk 3) 0)] 1
        (DrawData.mk [DrawList.mk [] []
          [DrawCmd.mk 3 (ClipRect.mk 1 1 2 2) 3 0]])).2 = none ∧
    setRenderStatesOf (ImguiAdapter.renderFrame (FrameBuffer.mk 6 6)
        [(3, TexEntry.mk (Texture.mk 3) 0)] 1
        (DrawData.mk [DrawList.mk [] []
          [DrawCmd.mk 3 (ClipRect.mk 1 1 2 2) 3 0]])).1 =
      ((DrawData.mk [DrawList.mk [] []
          [DrawCmd.mk 3 (ClipRect.mk 1 1 2 2) 3 0]]).cmdLists.map
        fun dl => dl.cmdBuffer.map fun c =>
          GpuEvent.setRenderState (FrameBuffer.mk 6 6).width (FrameBuffer.mk 6 6).height
            (pyInt (c.clipRect.x * 1)) (pyInt (c.clipRect.y * 1))
            (pyInt (c.clipRect.z * 1)) (pyInt (c.clipRect.w * 1))).flatten :=
  ⟨rfl,
   render_scissor_and_viewport (FrameBuffer.mk 6 6) [(3, TexEntry.mk (Texture.mk 3) 0)] 1
     (DrawData.mk [DrawList.mk [] [] [DrawCmd.mk 3 (ClipRect.mk 1 1 2 2) 3 0]]) rfl⟩

theorem renderFrame_error_kind (fb : FrameBuffer) (tex : TexMap) (s : ℚ) (dd : DrawData)
    (e : AdapterError) (h : (ImguiAdapter.renderFrame fb tex s dd).2 = some e) :
    e = AdapterError.textureNotRegistered := by
  rw [renderFrame_err] at h
  rcases renderBatches_error_cases fb tex (ImguiAdapter.scaleClipRects s dd).cmdLists with
    h2 | h2 <;> rw [h2] at h
  · exact absurd h (by simp)
  · exact (Option.some_inj.mp h).symm

/-- Claim C7 (amended): the adapter surfaces exactly two error kinds of its
own: the RuntimeError raised by the constructor when no ImGui context is
current, and the unregistered-texture ValueError raised inside render; no
other adapter operation raises an adapter-originated error. -/
theorem adapter_error_kinds :
    (∀ (st : AdapterState) (dd : DrawData) (e : AdapterError),
        (ImguiAdapter.render st dd).2.2 = some e →
        e = AdapterError.textureNotRegistered) ∧
    (∀ (hasContext : Bool) (winW winH : Int) (fontTex : Texture) (e : AdapterError),
        ImguiAdapter.init hasContext winW winH fontTex = Except.error e →
        e = AdapterError.noImguiContext) ∧
    pyExceptionType AdapterError.textureNotRegistered = "ValueError" ∧
    errorMessage AdapterError.textureNotRegistered
        = "Texture not registered with ImguiAdapter." ∧
    pyExceptionType AdapterError.noImguiContext = "RuntimeError" := by
  refine ⟨?_, ?_, rfl, rfl, rfl⟩
  · intro st dd e h
    rw [ImguiAdapter.render] at h
    cases hfb : st.frameBuffer with
    | none => rw [hfb] at h; exact absurd h (by simp)
    | some fb =>
      rw [hfb] at h
      exact renderFrame_error_kind fb st.textures st.ioFbScale dd e h
  · intro hasContext winW winH fontTex e h
    cases hasContext with
    | false =>
      rw [ImguiAdapter.init] at h
      simp only [Bool.false_eq_true, if_neg, not_false_iff] at h
      exact (Except.error.injEq _ _ ▸ h).symm
    | true =>
      rw [ImguiAdapter.init] at h
      simp at h

/-- Counterexample to claim C7 as stated: constructing the adapter without a
current ImGui context raises an adapter-originated error that is not the
unregistered-texture failure of render, so render's lookup failure is not the
only adapter-originated error kind. -/
theorem adapter_single_error_kind_counterexample :
    ImguiAdapter.init false 960 540 (Texture.mk 7)
        = Except.error AdapterError.noImguiContext ∧
    AdapterError.noImguiContext ≠ AdapterError.textureNotRegistered ∧
    pyExceptionType AdapterError.noImguiContext = "RuntimeError" :=
  ⟨rfl, by decide, rfl⟩

/-- Witness for adapter_error_kinds: a render with an unregistered texture id
errors with the texture error, and a context-less construction errors with
the context error. -/
theorem adapter_error_kinds_witness :
    (ImguiAdapter.render
        (AdapterState.mk [] (some (FrameBuffer.mk 1 1)) (some (1, 1)) (1, 1) 1 none 0)
        (DrawData.mk [DrawList.mk [] []
          [DrawCmd.mk 0 (ClipRect.mk 0 0 0 0) 3 0]])).2.2
      = some AdapterError.textureNotRegistered ∧
    AdapterError.textureNotRegistered = AdapterError.textureNotRegistered ∧
    ImguiAdapter.init false 1 1 (Texture.mk 3) = Except.error AdapterError.noImguiContext ∧
    AdapterError.noImguiContext = AdapterError.noImguiContext :=
  ⟨rfl,
   adapter_error_kinds.1
     (AdapterState.mk [] (some (FrameBuffer.mk 1 1)) (some (1, 1)) (1, 1) 1 none 0)
     (DrawData.mk [DrawList.mk [] [] [DrawCmd.mk 0 (ClipRect.mk 0 0 0 0) 3 0]])
     AdapterError.textureNotRegistered rfl,
   rfl,
   adapter_error_kinds.2.1 false 1 1 (Texture.mk 3) AdapterError.noImguiContext rfl⟩

end SlangpyImgui
